import Mathlib

/-!
Verification development for the SecureScribe bot service core:
the single-concurrency job scheduler (`JobStore`), its retry policy
(`executeTaskWithRetry`), and the recording/streaming pipeline
(`RecordingTask` / `GoogleMeetRecordingHandler` browser context code).

All definitions are shallow embeddings of the TypeScript source.
-/

namespace SecureScribe

/-! ## JobStore (src/lib: class JobStore)

State: `private isRunning: boolean = false; private shutdownRequested: boolean = false`.
-/

structure JobStore where
  isRunning : Bool
  shutdownRequested : Bool
  deriving DecidableEq, Repr

/-- Initial state of the `JobStore` class: both flags false. -/
def JobStore.init : JobStore := { isRunning := false, shutdownRequested := false }

/-- `addJob`: if `isRunning || shutdownRequested` return `{accepted:false}` with no
state change; otherwise set `isRunning = true` and return `{accepted:true}`
(the task itself is started detached). Returns (new state, accepted). -/
def JobStore.addJob (s : JobStore) : JobStore × Bool :=
  if s.isRunning || s.shutdownRequested then (s, false)
  else ({ s with isRunning := true }, true)

/-- Apply `n` consecutive `addJob` calls (no completion in between);
returns the final state and how many calls were accepted. -/
def JobStore.runSubmits (s : JobStore) : Nat → JobStore × Nat
  | 0 => (s, 0)
  | n + 1 =>
    let r := s.addJob
    let rest := JobStore.runSubmits r.1 n
    (rest.1, (if r.2 then 1 else 0) + rest.2)

/-! ## Scheduler trace semantics (for the busy-window invariant)

Events: an `addJob` call, or the `.finally` finalizer of a previously
accepted job running (with the job's success/failure outcome). -/

inductive SchedEvent where
  | submit : SchedEvent
  | finish (success : Bool) : SchedEvent
  deriving DecidableEq, Repr

/-- Scheduler state together with the number of accepted jobs whose
finalizer has not yet run (`active`). -/
structure SchedState where
  store : JobStore
  active : Nat
  deriving DecidableEq, Repr

def SchedState.init : SchedState := { store := JobStore.init, active := 0 }

/-- One scheduler step. A `finish` event is the `.finally` callback of a
previously accepted job: it runs only when a job is in flight, and it sets
`isRunning := false` regardless of the job's outcome. -/
def schedStep (s : SchedState) : SchedEvent → SchedState
  | .submit =>
    let r := s.store.addJob
    { store := r.1, active := if r.2 then s.active + 1 else s.active }
  | .finish _ =>
    if s.active = 0 then s
    else { store := { s.store with isRunning := false }, active := s.active - 1 }

def schedRun (s : SchedState) : List SchedEvent → SchedState
  | [] => s
  | e :: es => schedRun (schedStep s e) es

/-- The busy-window invariant: at most one job is in flight, and the busy
flag is set exactly while a job is in flight. -/
def SchedInv (s : SchedState) : Prop :=
  s.active ≤ 1 ∧ (s.store.isRunning = true ↔ s.active = 1)

instance (s : SchedState) : Decidable (SchedInv s) := by
  unfold SchedInv; infer_instance

/-! ## Retry policy (src/lib: JobStore.executeTaskWithRetry)

Errors: `KnownError` carries `retryable : boolean` and `maxRetries : number`
(constructed as `new KnownError(msg, retryable, maxRetries)` at call sites);
anything else has no classification. -/

inductive JSError where
  | known (retryable : Bool) (maxRetries : Nat) : JSError
  | unclassified : JSError
  deriving DecidableEq, Repr

/-- `safeError instanceof KnownError && !safeError.retryable` -/
def JSError.terminal : JSError → Bool
  | .known retryable _ => !retryable
  | .unclassified => false

/-- `safeError instanceof KnownError && safeError.retryable && (retryCount + 1) >= safeError.maxRetries` -/
def JSError.exhausted : JSError → Nat → Bool
  | .known retryable maxRetries, retryCount => retryable && decide (retryCount + 1 ≥ maxRetries)
  | .unclassified, _ => false

/-- Observable result of one (possibly recursive) `executeTaskWithRetry` run:
how many times the task body was executed, the sleeps performed in order
(milliseconds), and the final outcome (`none` = resolved, `some e` = the
promise rejected with `e`). -/
structure RunResult where
  attempts : Nat
  sleeps : List Nat
  outcome : Option JSError
  deriving DecidableEq, Repr

/-- `executeTaskWithRetry`. The task is modelled as a function from the
attempt index (0-based count of executions so far) to `none` (success) or
`some e` (throws `e`).  Mirrors the source:
```
try { await task(); } catch (error) {
  if (KnownError && !retryable) throw;
  if (KnownError && retryable && (retryCount + 1) >= maxRetries) throw;
  retryCount += 1;
  await sleep(retryCount * 30000);
  if (retryCount < 3) { await this.executeTaskWithRetry(task, logger, retryCount); }
  else { throw safeError; }
}
``` -/
def executeTaskWithRetry (task : Nat → Option JSError) (attempt : Nat)
    (retryCount : Nat) : RunResult :=
  match task attempt with
  | none => { attempts := 1, sleeps := [], outcome := none }
  | some e =>
    if e.terminal then { attempts := 1, sleeps := [], outcome := some e }
    else if e.exhausted retryCount then { attempts := 1, sleeps := [], outcome := some e }
    else
      if retryCount + 1 < 3 then
        let rest := executeTaskWithRetry task (attempt + 1) (retryCount + 1)
        { attempts := rest.attempts + 1,
          sleeps := (retryCount + 1) * 30000 :: rest.sleeps,
          outcome := rest.outcome }
      else
        { attempts := 1, sleeps := [(retryCount + 1) * 30000], outcome := some e }
  termination_by 3 - retryCount
  decreasing_by omega

/-- A task that throws `e` on every attempt. -/
def alwaysFail (e : JSError) : Nat → Option JSError := fun _ => some e

/-! ## sendAudioChunk (src/tasks/RecordingTask.ts, lines 212-239)

`if (!this.audioWs || this.audioWs.readyState !== WebSocket.OPEN) return false;`
then `try { ...; this.audioWs.send(audioBuffer); return true; } catch { ...; return false; }`.
Totality of the Lean function models "never throws". -/

inductive WsReadyState where
  | connecting : WsReadyState
  | wsOpen : WsReadyState
  | closing : WsReadyState
  | wsClosed : WsReadyState
  deriving DecidableEq, Repr

/-- `sendAudioChunk`. `audioWs = none` models `this.audioWs` being
undefined; `sendThrows` models `this.audioWs.send` raising. -/
def sendAudioChunk (audioWs : Option WsReadyState) (sendThrows : Bool) : Bool :=
  match audioWs with
  | none => false
  | some st =>
    if st ≠ WsReadyState.wsOpen then false
    else if sendThrows then false
    else true

/-! ## connectToAudioStream (src/tasks/RecordingTask.ts, lines 101-210) -/

structure AudioStreamingConfig where
  enabled : Bool
  wsEndpoint : String
  sampleRate : Nat
  channels : Nat
  format : String
  deriving DecidableEq, Repr

/-- URL built by `connectToAudioStream`: with a `sessionId`,
``​`${endpoint}/${sessionId}?user_id=${userId}`​``; otherwise the endpoint with
`URLSearchParams({user_id, sample_rate, channels, format})`, which serializes
in insertion order. -/
def buildWsUrl (cfg : AudioStreamingConfig) (userId : String)
    (sessionId : Option String) : String :=
  match sessionId with
  | some sid => cfg.wsEndpoint ++ "/" ++ sid ++ "?user_id=" ++ userId
  | none =>
    cfg.wsEndpoint ++ "?user_id=" ++ userId
      ++ "&sample_rate=" ++ toString cfg.sampleRate
      ++ "&channels=" ++ toString cfg.channels
      ++ "&format=" ++ cfg.format

/-- Transport events delivered to the WebSocket handlers registered by
`connectToAudioStream`. A `message` carries the parsed `session_id` field
(`none` when absent or when the JSON fails to parse — that case is caught
and ignored by the handler). -/
inductive WsEvent where
  | openEvt : WsEvent
  | message (sessionIdField : Option String) : WsEvent
  | errorEvt : WsEvent
  | closeEvt : WsEvent
  deriving DecidableEq, Repr

/-- Promise-visible state built up while transport events arrive.
`promise = none` means the returned promise is still pending;
`Except.error ()` a rejection, `Except.ok sid` a resolution. -/
structure ConnectState where
  promise : Option (Except Unit String)
  audioSessionId : Option String
  deriving Repr

/-- Handlers: on `open`, `resolve(sessionId || 'new-session')`; on `message`,
`if (response.session_id && !sessionId) this.audioSessionId = response.session_id`;
on `error`, `reject(error)`; `close` only logs. A JS promise settles at most
once, so a settled promise is left untouched. -/
def handleWsEvent (sessionId : Option String) (s : ConnectState) :
    WsEvent → ConnectState
  | WsEvent.openEvt =>
    if s.promise.isNone then
      { s with promise := some (Except.ok (sessionId.getD "new-session")) }
    else s
  | WsEvent.message sidField =>
    match sidField, sessionId with
    | some sid, none => { s with audioSessionId := some sid }
    | _, _ => s
  | WsEvent.errorEvt =>
    if s.promise.isNone then { s with promise := some (Except.error ()) } else s
  | WsEvent.closeEvt => s

def runWsEvents (sessionId : Option String) (s : ConnectState) :
    List WsEvent → ConnectState
  | [] => s
  | e :: es => runWsEvents sessionId (handleWsEvent sessionId s e) es

/-- Result of one `connectToAudioStream(sessionId?)` call.
`url = none` when no WebSocket was created; `result` is the outcome of the
returned promise (`Except.ok none` = resolved with `null`,
`Except.ok (some sid)` = resolved with a string, `none` = still pending). -/
structure ConnectRun where
  url : Option String
  result : Option (Except Unit (Option String))
  audioSessionId : Option String
  deriving Repr

/-- `connectToAudioStream`: returns `null` immediately when audio streaming
is disabled; otherwise builds the URL, creates the WebSocket (if the
constructor throws, the outer `catch` logs and returns `null`), registers
the handlers and hands back a promise settled by the transport events. -/
def connectToAudioStream (cfg : AudioStreamingConfig) (userId : String)
    (sessionId : Option String) (ctorThrows : Bool) (events : List WsEvent) :
    ConnectRun :=
  if cfg.enabled = false then
    { url := none, result := some (Except.ok none), audioSessionId := none }
  else
    let url := buildWsUrl cfg userId sessionId
    if ctorThrows then
      { url := some url, result := some (Except.ok none), audioSessionId := none }
    else
      let final := runWsEvents sessionId
        { promise := none, audioSessionId := none } events
      { url := some url,
        result := final.promise.map (fun r => r.map some),
        audioSessionId := final.audioSessionId }

/-! ## Silence detector
(src/tasks/RecordingTask.ts `detectIncrediblySilentMeeting`, lines 1548-1599;
same loop in src (GoogleMeetRecordingHandler) `setupSilenceDetection`.)

Every check: `audioActivity < silenceThreshold (= 10)` adds 100 ms to
`silenceDuration` and triggers `stopTheRecording()` (setting `monitor =
false`) once `silenceDuration >= inactivityLimit`; otherwise
`silenceDuration = 0`. The next check is scheduled 100 ms later only while
`monitor` holds. Energy samples (byte-average audio activity) are modelled
as naturals. -/

structure SilenceState where
  silenceDuration : Nat
  monitor : Bool
  stopCalls : Nat
  deriving DecidableEq, Repr

def SilenceState.start : SilenceState :=
  { silenceDuration := 0, monitor := true, stopCalls := 0 }

/-- One `monitorSilence` check on a single energy sample. -/
def monitorSilenceStep (inactivityLimit : Nat) (s : SilenceState)
    (audioActivity : Nat) : SilenceState :=
  if audioActivity < 10 then
    let d := s.silenceDuration + 100
    if d ≥ inactivityLimit then
      { silenceDuration := d, monitor := false, stopCalls := s.stopCalls + 1 }
    else { s with silenceDuration := d }
  else { s with silenceDuration := 0 }

/-- The recursive `setTimeout(monitorSilence, 100)` loop over a stream of
energy samples: after each check the next one runs only if `monitor` is
still set. -/
def monitorSilenceRun (inactivityLimit : Nat) (s : SilenceState) :
    List Nat → SilenceState
  | [] => s
  | a :: rest =>
    let s' := monitorSilenceStep inactivityLimit s a
    if s'.monitor then monitorSilenceRun inactivityLimit s' rest else s'

/-! ## stopTheRecording, guarded variant
(src (GoogleMeetRecordingHandler.injectRecordingCode), the browser-side
`stopTheRecording`): guarded by `isRecordingStopped`; stops the media
recorder if recording, stops each track whose `readyState !== 'ended'`,
clears timers/intervals, and calls `window.screenAppMeetEnd(slightlySecretId)`.
It performs no close of the audio StreamSession / audio WebSocket. -/

structure StopState where
  isRecordingStopped : Bool
  recorderRecording : Bool
  recorderStopCalls : Nat
  liveTracks : Nat
  trackStopCalls : Nat
  timersCleared : Bool
  sessionCloseCalls : Nat
  meetEndSignals : Nat
  deriving DecidableEq, Repr

def stopTheRecordingGuarded (s : StopState) : StopState :=
  if s.isRecordingStopped then s
  else
    { isRecordingStopped := true
      recorderRecording := false
      recorderStopCalls := s.recorderStopCalls + (if s.recorderRecording then 1 else 0)
      liveTracks := 0
      trackStopCalls := s.trackStopCalls + s.liveTracks
      timersCleared := true
      sessionCloseCalls := s.sessionCloseCalls
      meetEndSignals := s.meetEndSignals + 1 }

/-! ## stopTheRecording, RecordingTask.ts variant (lines 1390-1446)

No `isRecordingStopped` guard: `mediaRecorder.stop()` runs unconditionally,
the transcription audio recorder is stopped if in state `'recording'`,
`stream.getTracks().forEach(t => t.stop())` stops every track (no
`readyState` check), timers are cleared, and
`window.screenAppMeetEnd?.(slightlySecretId)` is invoked. No StreamSession
close here either. -/

structure StopStateRT where
  recorderStopCalls : Nat
  audioRecorderRecording : Bool
  audioRecorderStopCalls : Nat
  totalTracks : Nat
  trackStopCalls : Nat
  timersCleared : Bool
  sessionCloseCalls : Nat
  meetEndSignals : Nat
  deriving DecidableEq, Repr

def stopTheRecordingRT (s : StopStateRT) : StopStateRT :=
  { recorderStopCalls := s.recorderStopCalls + 1
    audioRecorderRecording := false
    audioRecorderStopCalls :=
      s.audioRecorderStopCalls + (if s.audioRecorderRecording then 1 else 0)
    totalTracks := s.totalTracks
    trackStopCalls := s.trackStopCalls + s.totalTracks
    timersCleared := true
    sessionCloseCalls := s.sessionCloseCalls
    meetEndSignals := s.meetEndSignals + 1 }

/-! ## startRecording pipeline (src/tasks/RecordingTask.ts browser context)

The video path: `getDisplayMedia` acquires the stream, the video
`MediaRecorder` is created with `ondataavailable` forwarding each non-empty
chunk to `sendChunkToServer` inside a `try/catch`, and
`mediaRecorder.start(2000)` (line 1386) runs unconditionally. All audio
sink setup (audio recorder creation, streaming) sits in its own
`try { } catch { log }` blocks, so an audio-side failure cannot reach the
video path or fail the job; a failed/absent audio WebSocket only makes
`sendAudioChunk` return `false` for every chunk. -/

structure PipelineResult where
  videoStarted : Bool
  videoChunkIntervalMs : Nat
  audioSinkEnabled : Bool
  jobFailed : Bool
  deriving DecidableEq, Repr

/-- `startRecording`, with the audio-connection outcome as an input
(`Except.error ()` = the StreamSession connect rejected or threw). When
`mediaDevices`/`getDisplayMedia` is unsupported the function returns early
and nothing starts. -/
def startRecordingPipeline (mediaDevicesSupported : Bool)
    (audioConnect : Except Unit String) : PipelineResult :=
  if mediaDevicesSupported = false then
    { videoStarted := false, videoChunkIntervalMs := 0,
      audioSinkEnabled := false, jobFailed := false }
  else
    { videoStarted := true
      videoChunkIntervalMs := 2000
      audioSinkEnabled := match audioConnect with
        | Except.ok _ => true
        | Except.error _ => false
      jobFailed := false }

/-- The video `ondataavailable` handler: an empty chunk is logged and
skipped; otherwise the chunk is forwarded to `sendChunkToServer`, any
upload error being caught and logged. Returns whether the chunk was
forwarded to the video sink. -/
def forwardVideoChunk (chunkSize : Nat) : Bool :=
  if chunkSize = 0 then false else true

/-! ## Helper lemmas -/

/-- While `isRunning` or `shutdownRequested` holds, every `addJob` call is
rejected and the state never changes. -/
theorem runSubmits_rejected (s : JobStore)
    (h : (s.isRunning || s.shutdownRequested) = true) :
    ∀ n, JobStore.runSubmits s n = (s, 0) := by
  intro n
  induction n with
  | zero => rfl
  | succ n ih =>
    unfold JobStore.runSubmits
    simp only [JobStore.addJob, h, if_true]
    simp [ih]

/-- Among any run of consecutive `addJob` calls, at most one is accepted. -/
theorem runSubmits_accepted_le_one (s : JobStore) (n : Nat) :
    (JobStore.runSubmits s n).2 ≤ 1 := by
  by_cases h : (s.isRunning || s.shutdownRequested) = true
  · simp [runSubmits_rejected s h n]
  · cases n with
    | zero => simp [JobStore.runSubmits]
    | succ n =>
      unfold JobStore.runSubmits
      simp only [JobStore.addJob, h, if_false, Bool.not_eq_true] at *
      have hrun : ({ s with isRunning := true } : JobStore).isRunning = true := rfl
      have := runSubmits_rejected { s with isRunning := true }
        (by simp) n
      simp [JobStore.addJob, h, this]

/-- One scheduler step preserves the busy-window invariant. -/
theorem schedStep_inv (s : SchedState) (e : SchedEvent) (h : SchedInv s) :
    SchedInv (schedStep s e) := by
  obtain ⟨h1, h2⟩ := h
  cases e with
  | submit =>
    unfold schedStep JobStore.addJob
    by_cases hb : (s.store.isRunning || s.store.shutdownRequested) = true
    · simp only [hb, if_true]
      exact ⟨h1, h2⟩
    · have hrun : s.store.isRunning = false := by
        cases hr : s.store.isRunning <;> simp [hr] at hb ⊢
      have hact : s.active = 0 := by
        rcases Nat.lt_or_ge s.active 1 with hlt | hge
        · omega
        · exfalso
          have : s.active = 1 := by omega
          have := h2.mpr this
          rw [hrun] at this
          exact Bool.false_ne_true this
      simp only [hb, if_false]
      refine ⟨by simp [hact], ?_⟩
      simp [hact]
  | finish b =>
    unfold schedStep
    by_cases ha : s.active = 0
    · simp only [ha, if_true]
      exact ⟨h1, h2⟩
    · simp only [ha, if_false]
      unfold SchedInv
      refine ⟨?_, ?_⟩ <;> simp <;> omega

/-- The busy-window invariant holds along every scheduler trace. -/
theorem schedRun_inv (s : SchedState) (h : SchedInv s) (evs : List SchedEvent) :
    SchedInv (schedRun s evs) := by
  induction evs generalizing s with
  | nil => exact h
  | cons e es ih => exact ih _ (schedStep_inv s e h)

/-- Global attempt bound for `executeTaskWithRetry`. -/
theorem executeTaskWithRetry_attempts_le (task : Nat → Option JSError)
    (attempt rc : Nat) :
    (executeTaskWithRetry task attempt rc).attempts ≤ max 1 (3 - rc) := by
  unfold executeTaskWithRetry
  cases h : task attempt with
  | none => simp
  | some e =>
    by_cases ht : e.terminal
    · simp [ht]
    · by_cases he : e.exhausted rc
      · simp [ht, he]
      · by_cases hlt : rc + 1 < 3
        · have ih := executeTaskWithRetry_attempts_le task (attempt + 1) (rc + 1)
          simp only [ht, he, hlt, if_true, if_false, Bool.false_eq_true]
          simp only [Bool.not_eq_true] at ht he
          simp [ht, he, hlt]
          omega
        · simp only [Bool.not_eq_true] at ht he
          simp [ht, he, hlt]
  termination_by 3 - rc
  decreasing_by omega

/-- Run of `executeTaskWithRetry` at `retryCount = 2` on a failure that is
still classified retryable: one final backoff sleep of `3 * 30000` ms, then
the rethrow. -/
theorem executeTaskWithRetry_rc2 (task : Nat → Option JSError) (e : JSError)
    (a : Nat) (ht : task a = some e) (h0 : e.terminal = false)
    (h3 : e.exhausted 2 = false) :
    executeTaskWithRetry task a 2 =
      { attempts := 1, sleeps := [90000], outcome := some e } := by
  unfold executeTaskWithRetry
  simp [ht, h0, h3]

/-- Full run of `executeTaskWithRetry` from `retryCount = 0` on a task that
always fails with a retryable, never-exhausted error. -/
theorem alwaysFail_run (e : JSError) (h0 : e.terminal = false)
    (h1 : e.exhausted 0 = false) (h2 : e.exhausted 1 = false)
    (h3 : e.exhausted 2 = false) (a : Nat) :
    executeTaskWithRetry (alwaysFail e) a 0 =
      { attempts := 3, sleeps := [30000, 60000, 90000], outcome := some e } := by
  have hrc2 := executeTaskWithRetry_rc2 (alwaysFail e) e (a + 2) rfl h0 h3
  have hrc1 : executeTaskWithRetry (alwaysFail e) (a + 1) 1 =
      { attempts := 2, sleeps := [60000, 90000], outcome := some e } := by
    unfold executeTaskWithRetry
    simp [alwaysFail, h0, h2]
    rw [show a + 1 + 1 = a + 2 by omega, hrc2]
    simp
  unfold executeTaskWithRetry
  simp [alwaysFail, h0, h1]
  rw [hrc1]
  simp

/-- A settled promise stays settled whatever transport events follow. -/
theorem runWsEvents_settled (sid : Option String) (x : Except Unit String)
    (s : ConnectState) (h : s.promise = some x) (evs : List WsEvent) :
    (runWsEvents sid s evs).promise = some x := by
  induction evs generalizing s with
  | nil => simpa [runWsEvents] using h
  | cons e es ih =>
    have hp : (handleWsEvent sid s e).promise = some x := by
      cases e with
      | openEvt => simp [handleWsEvent, h]
      | message sidField =>
        cases sidField <;> cases sid <;> simp [handleWsEvent, h]
      | errorEvt => simp [handleWsEvent, h]
      | closeEvt => simp [handleWsEvent, h]
    simpa [runWsEvents] using ih _ hp

/-- A silence-monitor loop entered with a fresh accumulator triggers the
stop path at most once. -/
theorem monitorSilenceRun_stopCalls_le (limit : Nat) (samples : List Nat) :
    ∀ s : SilenceState, s.monitor = true → s.stopCalls = 0 →
      (monitorSilenceRun limit s samples).stopCalls ≤ 1 := by
  induction samples with
  | nil => intro s _ h0; simp [monitorSilenceRun, h0]
  | cons a rest ih =>
    intro s hm h0
    unfold monitorSilenceRun
    by_cases hmon : (monitorSilenceStep limit s a).monitor = true
    · have hz : (monitorSilenceStep limit s a).stopCalls = 0 := by
        unfold monitorSilenceStep at hmon ⊢
        by_cases ha : a < 10
        · by_cases hd : s.silenceDuration + 100 ≥ limit
          · simp [ha, hd] at hmon
          · simp [ha, hd, h0]
        · simp [ha, h0]
      simp only [hmon, if_true]
      exact ih _ hmon hz
    · simp only [hmon, if_false, Bool.not_eq_true] at *
      unfold monitorSilenceStep
      by_cases ha : a < 10
      · by_cases hd : s.silenceDuration + 100 ≥ limit
        · simp [ha, hd, h0]
        · simp [ha, hd, h0]
      · simp [ha, h0]

/-- Concrete pre-stop browser state for the RecordingTask.ts stop path. -/
def sampleStopRT : StopStateRT :=
  { recorderStopCalls := 0, audioRecorderRecording := true,
    audioRecorderStopCalls := 0, totalTracks := 2, trackStopCalls := 0,
    timersCleared := false, sessionCloseCalls := 0, meetEndSignals := 0 }

/-- Concrete pre-stop browser state for the guarded stop path. -/
def sampleStopG : StopState :=
  { isRecordingStopped := false, recorderRecording := true,
    recorderStopCalls := 0, liveTracks := 2, trackStopCalls := 0,
    timersCleared := false, sessionCloseCalls := 0, meetEndSignals := 0 }

/-- Concrete enabled audio-streaming configuration. -/
def sampleCfg : AudioStreamingConfig :=
  { enabled := true, wsEndpoint := "wss://audio.example/ws",
    sampleRate := 16000, channels := 1, format := "pcm16" }

/-! ## Claims -/

/-- C1: `addJob` mutual exclusion: if the busy flag or the
shutdown-requested flag is set at the moment `addJob` is invoked, it
returns `{accepted:false}` and changes no state; otherwise it sets the busy
flag to true before returning `{accepted:true}`, so a second `addJob` call
issued while busy is rejected — in any run of consecutive `addJob` calls
with no completion in between, at most one call is accepted. -/
theorem C1_addJob_mutual_exclusion (s : JobStore) (n : Nat) :
    ((s.isRunning || s.shutdownRequested) = true → s.addJob = (s, false))
    ∧ (s.isRunning = false → s.shutdownRequested = false →
        s.addJob = ({ isRunning := true, shutdownRequested := false }, true)
        ∧ (s.addJob.1.addJob).2 = false)
    ∧ (JobStore.runSubmits s n).2 ≤ 1 := by
  refine ⟨?_, ?_, runSubmits_accepted_le_one s n⟩
  · intro h
    simp [JobStore.addJob, h]
  · intro h1 h2
    constructor
    · simp [JobStore.addJob, h1, h2]
    · simp [JobStore.addJob, h1, h2]

/-- Witness for C1 at the initial state: the first call is accepted and a
second call issued while busy is rejected; a busy store rejects with no
state change. -/
theorem C1_addJob_mutual_exclusion_witness :
    (JobStore.init.addJob = ({ isRunning := true, shutdownRequested := false }, true)
      ∧ (JobStore.init.addJob.1.addJob).2 = false)
    ∧ ({ isRunning := true, shutdownRequested := false } : JobStore).addJob
        = ({ isRunning := true, shutdownRequested := false }, false) :=
  ⟨(C1_addJob_mutual_exclusion JobStore.init 0).2.1 rfl rfl,
   (C1_addJob_mutual_exclusion
      { isRunning := true, shutdownRequested := false } 0).1 rfl⟩

/-- C2: when the submitted task fails on every attempt with a retryable
error that never exhausts its own `maxRetries`, `executeTaskWithRetry`
sleeps 30,000 ms before the 2nd attempt and 60,000 ms before the 3rd,
executes the task exactly 3 times — and at most 3 times for any task,
regardless of the error's own configured maximum — after which the error
propagates as the job's permanent failure. -/
theorem C2_backoff_and_attempt_cap (e : JSError) (h0 : e.terminal = false)
    (h1 : e.exhausted 0 = false) (h2 : e.exhausted 1 = false)
    (h3 : e.exhausted 2 = false) :
    (∀ task : Nat → Option JSError, (executeTaskWithRetry task 0 0).attempts ≤ 3)
    ∧ (executeTaskWithRetry (alwaysFail e) 0 0).attempts = 3
    ∧ (executeTaskWithRetry (alwaysFail e) 0 0).sleeps.take 2 = [30000, 60000]
    ∧ (executeTaskWithRetry (alwaysFail e) 0 0).outcome = some e := by
  refine ⟨?_, ?_, ?_, ?_⟩
  · intro task
    simpa using executeTaskWithRetry_attempts_le task 0 0
  all_goals simp [alwaysFail_run e h0 h1 h2 h3 0]

/-- Witness for C2 with an unclassified (hence retryable) error. -/
theorem C2_backoff_and_attempt_cap_witness :
    (executeTaskWithRetry (alwaysFail JSError.unclassified) 0 0).attempts = 3
    ∧ (executeTaskWithRetry (alwaysFail JSError.unclassified) 0 0).sleeps.take 2
        = [30000, 60000] :=
  ⟨(C2_backoff_and_attempt_cap JSError.unclassified rfl rfl rfl rfl).2.1,
   (C2_backoff_and_attempt_cap JSError.unclassified rfl rfl rfl rfl).2.2.1⟩

/-- C3: failure classification in `executeTaskWithRetry`: a `KnownError`
with `retryable = false` is rethrown immediately with zero retries and no
backoff sleep; a retryable `KnownError` whose retry count has reached its
own `maxRetries` is rethrown without a further retry; an error that is not
a `KnownError` is treated as retryable and retried (with its backoff sleep)
while the global cap allows. -/
theorem C3_error_classification (task : Nat → Option JSError) (a rc m : Nat) :
    (task a = some (JSError.known false m) →
      executeTaskWithRetry task a rc =
        { attempts := 1, sleeps := [], outcome := some (JSError.known false m) })
    ∧ (task a = some (JSError.known true m) → m ≤ rc →
      executeTaskWithRetry task a rc =
        { attempts := 1, sleeps := [], outcome := some (JSError.known true m) })
    ∧ (task a = some JSError.unclassified → rc + 1 < 3 →
      executeTaskWithRetry task a rc =
        { attempts := (executeTaskWithRetry task (a + 1) (rc + 1)).attempts + 1,
          sleeps := (rc + 1) * 30000
            :: (executeTaskWithRetry task (a + 1) (rc + 1)).sleeps,
          outcome := (executeTaskWithRetry task (a + 1) (rc + 1)).outcome }) := by
  refine ⟨?_, ?_, ?_⟩
  · intro ht
    unfold executeTaskWithRetry
    simp [ht, JSError.terminal]
  · intro ht hm
    unfold executeTaskWithRetry
    have hex : JSError.exhausted (JSError.known true m) rc = true := by
      simp [JSError.exhausted]
      omega
    simp [ht, JSError.terminal, hex]
  · intro ht hlt
    conv_lhs => rw [executeTaskWithRetry.eq_def]
    simp [ht, JSError.terminal, JSError.exhausted, hlt]

/-- Witness for C3: a non-retryable KnownError rethrown at once, an
exhausted retryable KnownError rethrown, and an unclassified error retried. -/
theorem C3_error_classification_witness :
    executeTaskWithRetry (alwaysFail (JSError.known false 5)) 0 0 =
      { attempts := 1, sleeps := [], outcome := some (JSError.known false 5) }
    ∧ executeTaskWithRetry (alwaysFail (JSError.known true 2)) 0 2 =
      { attempts := 1, sleeps := [], outcome := some (JSError.known true 2) }
    ∧ executeTaskWithRetry (alwaysFail JSError.unclassified) 0 0 =
      { attempts :=
          (executeTaskWithRetry (alwaysFail JSError.unclassified) 1 1).attempts + 1,
        sleeps := 1 * 30000
          :: (executeTaskWithRetry (alwaysFail JSError.unclassified) 1 1).sleeps,
        outcome := (executeTaskWithRetry (alwaysFail JSError.unclassified) 1 1).outcome } :=
  ⟨(C3_error_classification (alwaysFail (JSError.known false 5)) 0 0 5).1 rfl,
   (C3_error_classification (alwaysFail (JSError.known true 2)) 0 2 2).2.1 rfl
     (by omega),
   (C3_error_classification (alwaysFail JSError.unclassified) 0 0 0).2.2 rfl
     (by omega)⟩

/-- C4: the busy flag holds exactly while an accepted job is in flight
(the whole span from start to the completion/failure callback), at most one
job is ever inside the busy window, and the finalizer resets the flag to
`false` unconditionally — on success and on failure alike. -/
theorem C4_busy_window_invariant (evs : List SchedEvent) (s : SchedState)
    (b : Bool) (h : 0 < s.active) :
    SchedInv (schedRun SchedState.init evs)
    ∧ (schedStep s (SchedEvent.finish true)).store.isRunning = false
    ∧ (schedStep s (SchedEvent.finish false)).store.isRunning = false
    ∧ (schedStep s (SchedEvent.finish b)).active = s.active - 1 := by
  have hne : ¬ s.active = 0 := by omega
  refine ⟨schedRun_inv _ (by decide) evs, ?_, ?_, ?_⟩
  all_goals
    unfold schedStep
    simp [hne]

/-- Witness for C4: the finalizer of the single in-flight job resets the
busy flag after a failure. -/
theorem C4_busy_window_invariant_witness :
    (schedStep { store := { isRunning := true, shutdownRequested := false },
                 active := 1 } (SchedEvent.finish false)).store.isRunning = false :=
  (C4_busy_window_invariant []
    { store := { isRunning := true, shutdownRequested := false }, active := 1 }
    false (by decide)).2.2.1

/-- C5 counterexample: the claim fails on the code. The
`RecordingTask.ts` `stopTheRecording` (lines 1390-1446) has no boolean
guard, so invoking it twice stops the media recorder twice, stops the
tracks twice over, and signals completion twice; and even the guarded
variant closes the audio StreamSession zero times, not once. -/
theorem C5_idempotent_stop_counterexample :
    (stopTheRecordingRT (stopTheRecordingRT sampleStopRT)).meetEndSignals = 2
    ∧ (stopTheRecordingRT (stopTheRecordingRT sampleStopRT)).recorderStopCalls = 2
    ∧ (stopTheRecordingRT (stopTheRecordingRT sampleStopRT)).trackStopCalls = 4
    ∧ (stopTheRecordingGuarded
        (stopTheRecordingGuarded sampleStopG)).sessionCloseCalls = 0 := by
  decide

/-- C5 amended: in the `GoogleMeetRecordingHandler` variant the stop path
is guarded by the `isRecordingStopped` boolean: every invocation after the
first is a no-op, and the first invocation stops the media recorder (when
recording) exactly once, stops each live capture track exactly once, clears
the timers and sends exactly one completion signal to the host process; no
invocation closes the audio StreamSession, and the `RecordingTask.ts`
variant of `stopTheRecording` carries no such guard. -/
theorem C5_idempotent_stop_amended (s g : StopState)
    (h : g.isRecordingStopped = false) :
    stopTheRecordingGuarded (stopTheRecordingGuarded s) = stopTheRecordingGuarded s
    ∧ (stopTheRecordingGuarded g).meetEndSignals = g.meetEndSignals + 1
    ∧ (stopTheRecordingGuarded g).recorderStopCalls
        = g.recorderStopCalls + (if g.recorderRecording then 1 else 0)
    ∧ (stopTheRecordingGuarded g).trackStopCalls = g.trackStopCalls + g.liveTracks
    ∧ (stopTheRecordingGuarded g).timersCleared = true
    ∧ (stopTheRecordingGuarded g).sessionCloseCalls = g.sessionCloseCalls := by
  refine ⟨?_, ?_, ?_, ?_, ?_, ?_⟩
  · by_cases hs : s.isRecordingStopped = true
    · simp [stopTheRecordingGuarded, hs]
    · simp only [Bool.not_eq_true] at hs
      simp [stopTheRecordingGuarded, hs]
  all_goals simp [stopTheRecordingGuarded, h]

/-- Witness for C5's amended statement at a concrete pre-stop state. -/
theorem C5_idempotent_stop_amended_witness :
    stopTheRecordingGuarded (stopTheRecordingGuarded sampleStopG)
      = stopTheRecordingGuarded sampleStopG
    ∧ (stopTheRecordingGuarded sampleStopG).meetEndSignals
        = sampleStopG.meetEndSignals + 1
    ∧ (stopTheRecordingGuarded sampleStopG).sessionCloseCalls
        = sampleStopG.sessionCloseCalls :=
  ⟨(C5_idempotent_stop_amended sampleStopG sampleStopG rfl).1,
   (C5_idempotent_stop_amended sampleStopG sampleStopG rfl).2.1,
   (C5_idempotent_stop_amended sampleStopG sampleStopG rfl).2.2.2.2.2⟩

/-- C6: audio StreamSession failures are isolated from the video pipeline:
with audio streaming enabled, a transport error rejects the connect promise
and a synchronous constructor throw is caught and yields `null`; yet the
video recorder start, the forwarding of non-empty video chunks and the
job's (successful) outcome are identical whatever the audio connection
outcome, and a sink whose socket never reached OPEN simply refuses every
chunk. -/
theorem C6_audio_failure_isolation (cfg : AudioStreamingConfig) (uid : String)
    (sid : Option String) (evs : List WsEvent) (h : cfg.enabled = true) :
    (connectToAudioStream cfg uid sid false (WsEvent.errorEvt :: evs)).result
        = some (Except.error ())
    ∧ (connectToAudioStream cfg uid sid true evs).result = some (Except.ok none)
    ∧ (∀ outcome : Except Unit String,
        (startRecordingPipeline true outcome).videoStarted = true
        ∧ (startRecordingPipeline true outcome).jobFailed = false)
    ∧ (startRecordingPipeline true (Except.error ())).audioSinkEnabled = false
    ∧ (∀ n : Nat, n ≠ 0 → forwardVideoChunk n = true)
    ∧ (∀ st : WsReadyState, ∀ b : Bool, st ≠ WsReadyState.wsOpen →
        sendAudioChunk (some st) b = false) := by
  refine ⟨?_, ?_, ?_, rfl, ?_, ?_⟩
  · have hset : (handleWsEvent sid
        { promise := none, audioSessionId := none } WsEvent.errorEvt).promise
          = some (Except.error ()) := by
      simp [handleWsEvent]
    have := runWsEvents_settled sid (Except.error ()) _ hset evs
    simp [connectToAudioStream, h, runWsEvents, this, Except.map]
  · simp [connectToAudioStream, h]
  · intro outcome
    exact ⟨rfl, rfl⟩
  · intro n hn
    simp [forwardVideoChunk, hn]
  · intro st b hst
    simp [sendAudioChunk, hst]

/-- Witness for C6 at a concrete configuration: an error-first transport
run rejects, the video pipeline still starts with the job succeeding, and
the dead audio sink drops chunks. -/
theorem C6_audio_failure_isolation_witness :
    (connectToAudioStream sampleCfg "u1" none false [WsEvent.errorEvt]).result
        = some (Except.error ())
    ∧ (startRecordingPipeline true (Except.error ())).videoStarted = true
    ∧ (startRecordingPipeline true (Except.error ())).jobFailed = false
    ∧ (startRecordingPipeline true (Except.error ())).audioSinkEnabled = false
    ∧ forwardVideoChunk 2048 = true
    ∧ sendAudioChunk (some WsReadyState.wsClosed) false = false :=
  ⟨(C6_audio_failure_isolation sampleCfg "u1" none [] rfl).1,
   ((C6_audio_failure_isolation sampleCfg "u1" none [] rfl).2.2.1
      (Except.error ())).1,
   ((C6_audio_failure_isolation sampleCfg "u1" none [] rfl).2.2.1
      (Except.error ())).2,
   (C6_audio_failure_isolation sampleCfg "u1" none [] rfl).2.2.2.1,
   (C6_audio_failure_isolation sampleCfg "u1" none [] rfl).2.2.2.2.1 2048
     (by decide),
   (C6_audio_failure_isolation sampleCfg "u1" none [] rfl).2.2.2.2.2
     WsReadyState.wsClosed false (by decide)⟩

/-- C7: `sendAudioChunk` returns `false` without throwing whenever the
WebSocket is missing or its `readyState` is not OPEN; in the OPEN state a
successful send returns `true`; an exception raised while sending is caught
and the call returns `false`. -/
theorem C7_sendChunk_gating (st : WsReadyState) (b : Bool)
    (h : st ≠ WsReadyState.wsOpen) :
    sendAudioChunk none b = false
    ∧ sendAudioChunk (some st) b = false
    ∧ sendAudioChunk (some WsReadyState.wsOpen) false = true
    ∧ sendAudioChunk (some WsReadyState.wsOpen) true = false := by
  refine ⟨rfl, ?_, rfl, rfl⟩
  simp [sendAudioChunk, h]

/-- Witness for C7 on a closed socket with a failing send. -/
theorem C7_sendChunk_gating_witness :
    sendAudioChunk none true = false
    ∧ sendAudioChunk (some WsReadyState.wsClosed) true = false :=
  ⟨(C7_sendChunk_gating WsReadyState.wsClosed true (by decide)).1,
   (C7_sendChunk_gating WsReadyState.wsClosed true (by decide)).2.1⟩

/-- C8: the silence detector adds 100 ms per below-threshold (< 10) sample,
resets the accumulator to 0 on any sample at or above the threshold,
triggers the stop path (exactly once over any whole run) as soon as the
accumulated silence reaches the inactivity limit — and with
`inactivityLimit = 500` and samples `[5,5,5,5,5]` taken 100 ms apart the
stop fires at the 5th sample, whatever samples would follow. -/
theorem C8_silence_accumulation (limit : Nat) (s : SilenceState) (a : Nat)
    (samples extra : List Nat) :
    (a < 10 → s.silenceDuration + 100 < limit →
      monitorSilenceStep limit s a
        = { s with silenceDuration := s.silenceDuration + 100 })
    ∧ (a < 10 → limit ≤ s.silenceDuration + 100 →
      monitorSilenceStep limit s a =
        { silenceDuration := s.silenceDuration + 100, monitor := false,
          stopCalls := s.stopCalls + 1 })
    ∧ (10 ≤ a → monitorSilenceStep limit s a = { s with silenceDuration := 0 })
    ∧ (monitorSilenceRun limit SilenceState.start samples).stopCalls ≤ 1
    ∧ monitorSilenceRun 500 SilenceState.start [5, 5, 5, 5] =
        { silenceDuration := 400, monitor := true, stopCalls := 0 }
    ∧ monitorSilenceRun 500 SilenceState.start (5 :: 5 :: 5 :: 5 :: 5 :: extra) =
        { silenceDuration := 500, monitor := false, stopCalls := 1 } := by
  refine ⟨?_, ?_, ?_,
    monitorSilenceRun_stopCalls_le limit samples SilenceState.start rfl rfl,
    by decide, ?_⟩
  · intro ha hd
    have hd' : ¬ s.silenceDuration + 100 ≥ limit := by omega
    simp [monitorSilenceStep, ha, hd']
  · intro ha hd
    simp [monitorSilenceStep, ha, hd]
  · intro ha
    have ha' : ¬ a < 10 := by omega
    simp [monitorSilenceStep, ha']
  · simp [monitorSilenceRun, monitorSilenceStep, SilenceState.start]

/-- Witness for C8: the scenario run and concrete step behavior at the
threshold and at the limit. -/
theorem C8_silence_accumulation_witness :
    monitorSilenceStep 500 SilenceState.start 5 =
      { SilenceState.start with
          silenceDuration := SilenceState.start.silenceDuration + 100 }
    ∧ monitorSilenceStep 500
        { silenceDuration := 400, monitor := true, stopCalls := 0 } 5 =
      { silenceDuration := 500, monitor := false, stopCalls := 1 }
    ∧ monitorSilenceStep 500
        { silenceDuration := 400, monitor := true, stopCalls := 0 } 10 =
      { silenceDuration := 0, monitor := true, stopCalls := 0 }
    ∧ monitorSilenceRun 500 SilenceState.start [5, 5, 5, 5, 5] =
        { silenceDuration := 500, monitor := false, stopCalls := 1 } :=
  ⟨(C8_silence_accumulation 500 SilenceState.start 5 [] []).1 (by decide)
      (by decide),
   (C8_silence_accumulation 500
      { silenceDuration := 400, monitor := true, stopCalls := 0 } 5 [] []).2.1
      (by decide) (by decide),
   (C8_silence_accumulation 500
      { silenceDuration := 400, monitor := true, stopCalls := 0 } 10 [] []).2.2.1
      (by decide),
   (C8_silence_accumulation 500 SilenceState.start 5 [] []).2.2.2.2.2⟩

/-- C9 counterexample: for a new session (no `sessionId` argument) the
promise returned by `connectToAudioStream` resolves to the placeholder
string `"new-session"` once the open event fires, not to the session id the
service assigns (which arrives in a later message and is only stored in
`audioSessionId`). -/
theorem C9_connect_counterexample :
    (connectToAudioStream sampleCfg "u1" none false
        [WsEvent.openEvt, WsEvent.message (some "s1")]).audioSessionId = some "s1"
    ∧ (connectToAudioStream sampleCfg "u1" none false
        [WsEvent.openEvt, WsEvent.message (some "s1")]).result
        = some (Except.ok (some "new-session"))
    ∧ ("new-session" : String) ≠ "s1" :=
  ⟨rfl, rfl, by decide⟩

/-- C9 amended: `connectToAudioStream(sessionId?)` connects to
`{endpoint}/{sessionId}?user_id=<id>` on resume and to
`{endpoint}?user_id=<id>&sample_rate=<int>&channels=<int>&format=<string>`
for a new session; the returned promise resolves once the transport open
event fires — to the supplied session id on resume but to the placeholder
`"new-session"` for a new session, whose service-assigned id is recorded
from a later message into `audioSessionId` — and rejects on transport
error. -/
theorem C9_connect_urls_and_promise (cfg : AudioStreamingConfig)
    (uid sid x : String) (sidOpt : Option String) (evs : List WsEvent)
    (h : cfg.enabled = true) :
    (connectToAudioStream cfg uid (some sid) false evs).url
        = some (cfg.wsEndpoint ++ "/" ++ sid ++ "?user_id=" ++ uid)
    ∧ (connectToAudioStream cfg uid none false evs).url
        = some (cfg.wsEndpoint ++ "?user_id=" ++ uid
            ++ "&sample_rate=" ++ toString cfg.sampleRate
            ++ "&channels=" ++ toString cfg.channels
            ++ "&format=" ++ cfg.format)
    ∧ (connectToAudioStream cfg uid (some sid) false
        (WsEvent.openEvt :: evs)).result = some (Except.ok (some sid))
    ∧ (connectToAudioStream cfg uid none false
        (WsEvent.openEvt :: evs)).result = some (Except.ok (some "new-session"))
    ∧ (connectToAudioStream cfg uid none false
        [WsEvent.openEvt, WsEvent.message (some x)]).audioSessionId = some x
    ∧ (connectToAudioStream cfg uid sidOpt false
        (WsEvent.errorEvt :: evs)).result = some (Except.error ()) := by
  refine ⟨?_, ?_, ?_, ?_, ?_, ?_⟩
  · simp [connectToAudioStream, h, buildWsUrl]
  · simp [connectToAudioStream, h, buildWsUrl]
  · have hset : (handleWsEvent (some sid)
        { promise := none, audioSessionId := none } WsEvent.openEvt).promise
          = some (Except.ok sid) := by
      simp [handleWsEvent]
    have := runWsEvents_settled (some sid) (Except.ok sid) _ hset evs
    simp [connectToAudioStream, h, runWsEvents, this, Except.map]
  · have hset : (handleWsEvent none
        { promise := none, audioSessionId := none } WsEvent.openEvt).promise
          = some (Except.ok "new-session") := by
      simp [handleWsEvent]
    have := runWsEvents_settled none (Except.ok "new-session") _ hset evs
    simp [connectToAudioStream, h, runWsEvents, this, Except.map]
  · simp [connectToAudioStream, h, runWsEvents, handleWsEvent]
  · have hset : (handleWsEvent sidOpt
        { promise := none, audioSessionId := none } WsEvent.errorEvt).promise
          = some (Except.error ()) := by
      simp [handleWsEvent]
    have := runWsEvents_settled sidOpt (Except.error ()) _ hset evs
    simp [connectToAudioStream, h, runWsEvents, this, Except.map]

/-- Witness for C9's amended statement at a concrete configuration. -/
theorem C9_connect_urls_and_promise_witness :
    (connectToAudioStream sampleCfg "u1" (some "sess7") false []).url
        = some ("wss://audio.example/ws" ++ "/" ++ "sess7" ++ "?user_id=" ++ "u1")
    ∧ (connectToAudioStream sampleCfg "u1" none false []).url
        = some ("wss://audio.example/ws" ++ "?user_id=" ++ "u1"
            ++ "&sample_rate=" ++ toString (16000 : Nat)
            ++ "&channels=" ++ toString (1 : Nat)
            ++ "&format=" ++ "pcm16")
    ∧ (connectToAudioStream sampleCfg "u1" (some "sess7") false
        [WsEvent.openEvt]).result = some (Except.ok (some "sess7"))
    ∧ (connectToAudioStream sampleCfg "u1" none false
        [WsEvent.openEvt, WsEvent.message (some "abc")]).audioSessionId
        = some "abc"
    ∧ (connectToAudioStream sampleCfg "u1" none false
        [WsEvent.errorEvt]).result = some (Except.error ()) :=
  ⟨(C9_connect_urls_and_promise sampleCfg "u1" "sess7" "abc" none [] rfl).1,
   (C9_connect_urls_and_promise sampleCfg "u1" "sess7" "abc" none [] rfl).2.1,
   (C9_connect_urls_and_promise sampleCfg "u1" "sess7" "abc" none [] rfl).2.2.1,
   (C9_connect_urls_and_promise sampleCfg "u1" "sess7" "abc" none [] rfl).2.2.2.2.1,
   (C9_connect_urls_and_promise sampleCfg "u1" "sess7" "abc" none [] rfl).2.2.2.2.2⟩

/-- C10: whenever `executeTaskWithRetry` abandons a retryable (or
unclassified) failure because the global 3-attempt cap is reached, the
rethrow is preceded by one more backoff sleep: at `retryCount = 2` the
counter is bumped to 3 and a 90,000 ms sleep runs before the promise
rejects; from a fresh start the full failing run is 3 attempts with sleeps
30,000, 60,000 and 90,000 ms, the last one right before the permanent
failure surfaces. -/
theorem C10_final_backoff_sleep (task : Nat → Option JSError) (e : JSError)
    (a : Nat) (ht : task a = some e) (h0 : e.terminal = false)
    (h1 : e.exhausted 0 = false) (h2 : e.exhausted 1 = false)
    (h3 : e.exhausted 2 = false) :
    executeTaskWithRetry task a 2 =
      { attempts := 1, sleeps := [90000], outcome := some e }
    ∧ executeTaskWithRetry (alwaysFail e) 0 0 =
      { attempts := 3, sleeps := [30000, 60000, 90000], outcome := some e } :=
  ⟨executeTaskWithRetry_rc2 task e a ht h0 h3,
   alwaysFail_run e h0 h1 h2 h3 0⟩

/-- Witness for C10 with an unclassified error failing every attempt. -/
theorem C10_final_backoff_sleep_witness :
    executeTaskWithRetry (alwaysFail JSError.unclassified) 0 2 =
      { attempts := 1, sleeps := [90000], outcome := some JSError.unclassified }
    ∧ executeTaskWithRetry (alwaysFail JSError.unclassified) 0 0 =
      { attempts := 3, sleeps := [30000, 60000, 90000],
        outcome := some JSError.unclassified } :=
  ⟨(C10_final_backoff_sleep (alwaysFail JSError.unclassified)
      JSError.unclassified 0 rfl rfl rfl rfl rfl).1,
   (C10_final_backoff_sleep (alwaysFail JSError.unclassified)
      JSError.unclassified 0 rfl rfl rfl rfl rfl).2⟩

end SecureScribe
